import Mathlib

set_option maxRecDepth 16384

/-!
Verification of the RAG chat backend (api_server.py) against its
natural-language specification.  The Python module is shallowly embedded:
the three global dictionaries become an explicit `ServerState` record,
endpoint handlers become pure state-passing functions, exceptions become
`Except`, and the remote model service becomes an explicit environment of
behaviours (`Env`).
-/

/-- A conversation message, distinguished the way the code does via
`isinstance(m, HumanMessage)`. -/
inductive ChatMessage where
  | human (content : String)
  | ai (content : String)
deriving DecidableEq, Repr

/-- `m.content` of a langchain message. -/
def ChatMessage.content : ChatMessage → String
  | .human c => c
  | .ai c => c

/-- The bound model client (`MyDualEndpointLLM`): it is constructed from the
three configuration values and stored in the session. -/
structure LLM where
  secret_key : String
  non_stream_url : String
  stream_url : String
deriving DecidableEq, Repr

/-- One entry of `chat_sessions`: conversation memory messages, the bound
LLM client, `created_at` and `message_count`. -/
structure Session where
  messages : List ChatMessage
  llm : LLM
  created_at : Nat
  message_count : Nat
deriving DecidableEq, Repr

/-- One entry of `uploaded_files`: stored path and byte size. -/
structure FileInfo where
  path : String
  size : Nat
deriving DecidableEq, Repr

/-- Modelled from the spec: the FAISS vector store is a third-party library
whose code is not in src/.  Per section 4.2 and the glossary, an index is a
collection of chunk texts together with a similarity score between a query
and each chunk (the embedding metric is abstracted into `score`). -/
structure VectorStore where
  chunks : List String
  score : String → String → Int

/-- Exceptions raised by the embedded code. -/
inductive AppError where
  | fileNotFound (msg : String)
  | valueError (msg : String)
  | keyError (key : String)
  | upstream (msg : String)
  | httpError (status : Nat) (detail : String)
deriving DecidableEq, Repr

/-- Python `str(e)` on the exceptions above (`str` of a `KeyError` wraps the
key in single quotes). -/
def errDescription : AppError → String
  | .fileNotFound m => m
  | .valueError m => m
  | .keyError k => "\x27" ++ k ++ "\x27"
  | .upstream m => m
  | .httpError _ d => d

/-- The three module-level dictionaries plus the set of files on disk. -/
structure ServerState where
  uploaded_files : List (String × FileInfo)
  vector_stores : List (String × VectorStore)
  chat_sessions : List (String × Session)
  files : List String

/-- The process environment: contents of keys.txt (`none` = file absent,
otherwise the parsed JSON object), the clock, and the remote model service
behind the LLM client — a blocking call that returns a full answer or
raises, and an incremental call that yields its fragments in order and then
either finishes cleanly (`none`) or raises (`some description`). -/
structure Env where
  keysFile : Option (List (String × String))
  now : Nat
  invoke : String → Except String String
  stream : String → List String × Option String

/-! ### Dictionary operations (Python dict semantics on assoc lists) -/

/-- `d[k] = v` on a dict: replace in place or append. -/
def insertKey (k : String) (v : α) : List (String × α) → List (String × α)
  | [] => [(k, v)]
  | p :: rest => if p.1 = k then (k, v) :: rest else p :: insertKey k v rest

/-- `d.pop(k, None)` state change: remove the binding for `k`. -/
def eraseKey (k : String) (m : List (String × α)) : List (String × α) :=
  m.filter (fun p => p.1 ≠ k)

/-- `d[k]` read access: raises `KeyError` when absent. -/
def dictGet (m : List (String × α)) (k : String) : Except AppError α :=
  match List.lookup k m with
  | some v => Except.ok v
  | none => Except.error (.keyError k)

/-- Install (or replace) a session binding in the session map
(`chat_sessions[session_id] = ...`). -/
def putSession (st : ServerState) (sid : String) (s : Session) : ServerState :=
  { st with chat_sessions := insertKey sid s st.chat_sessions }

/-- The memory update both chat handlers perform after the model answers:
append the user message and the assistant answer, in that order, and bump
the message counter. -/
def appendTurn (session : Session) (user_message answer : String) : Session :=
  { session with
    messages := session.messages ++
      [ChatMessage.human user_message, ChatMessage.ai answer]
    message_count := session.message_count + 1 }

/-! ### Configuration (`load_config`, api_server.py lines 66-75) -/

/-- The required configuration keys, in the order the code lists them. -/
def required_keys : List String := ["API_KEY", "AI_Agent_URL", "AI_Agent_Stream_URL"]

/-- Python `str` of a list of strings, as interpolated into the
missing-keys error message. -/
def pyReprStrList (l : List String) : String :=
  "[" ++ String.intercalate (", ") (l.map (fun s => "\x27" ++ s ++ "\x27")) ++ "]"

/-- `load_config()`: raises `FileNotFoundError` when keys.txt is absent and
`ValueError` when a required key is missing from the parsed JSON object. -/
def load_config (env : Env) : Except AppError (List (String × String)) :=
  match env.keysFile with
  | none =>
      Except.error (.fileNotFound
        ("keys.txt not found. Please create it with your API configuration."))
  | some config =>
      let missing_keys := required_keys.filter (fun k => (List.lookup k config).isNone)
      if missing_keys.isEmpty then Except.ok config
      else Except.error (.valueError ("Missing keys in keys.txt: " ++ pyReprStrList missing_keys))

/-! ### Session store (`get_or_create_session`, lines 91-110) -/

/-- `get_or_create_session(session_id)`: return the existing session, or
load the configuration, build the LLM client and install a fresh session
with empty memory and a zero message counter. -/
def get_or_create_session (env : Env) (st : ServerState) (session_id : String) :
    Except AppError (Session × ServerState) :=
  match List.lookup session_id st.chat_sessions with
  | some s => Except.ok (s, st)
  | none =>
    match load_config env with
    | .error e => Except.error e
    | .ok config =>
      match dictGet config ("API_KEY"), dictGet config ("AI_Agent_URL"),
            dictGet config ("AI_Agent_Stream_URL") with
      | .error e, _, _ => Except.error e
      | .ok _, .error e, _ => Except.error e
      | .ok _, .ok _, .error e => Except.error e
      | .ok key, .ok nsu, .ok su =>
        let s : Session :=
          { messages := []
            llm := { secret_key := key, non_stream_url := nsu, stream_url := su }
            created_at := env.now
            message_count := 0 }
        Except.ok (s, putSession st session_id s)

/-! ### Retrieval (spec section 4.2) -/

/-- Insert a chunk into a list sorted by non-increasing score. -/
def insertDesc (score : String → Int) (c : String) : List String → List String
  | [] => [c]
  | x :: xs => if score x ≤ score c then c :: x :: xs else x :: insertDesc score c xs

/-- Sort chunks by non-increasing score. -/
def sortDesc (score : String → Int) : List String → List String
  | [] => []
  | x :: xs => insertDesc score x (sortDesc score xs)

/-- Modelled from the spec: `topK` is the FAISS retriever
(`as_retriever(search_kwargs=...k...).get_relevant_documents(query)`), whose
code is not in src/.  Per section 4.2 it ranks the chunks of the document by
descending similarity to the query and, per the testable property in section
8, returns the `k` best — all of them when the index holds fewer than `k`. -/
def topK (vs : VectorStore) (query : String) (k : Nat) : List String :=
  (sortDesc (vs.score query) vs.chunks).take k

/-! ### Prompt assembly (`build_strict_prompt`, lines 113-147) -/

/-- Python `l[-10:]`: the last `n` elements. -/
def lastN (n : Nat) (l : List α) : List α := List.drop (l.length - n) l

/-- The line rendered for one history message:
User/Assistant depending on the message class. -/
def history_line (m : ChatMessage) : String :=
  (match m with | .human _ => "User" | .ai _ => "Assistant") ++ ": " ++ m.content

/-- The `history_text` local of `build_strict_prompt`: empty for an empty
history, else a header plus the last 10 messages, one line each. -/
def history_text (history_messages : List ChatMessage) : String :=
  if history_messages.isEmpty then ""
  else "\n\nPrevious conversation:\n"
    ++ String.intercalate ("\n") ((lastN 10 history_messages).map history_line)

/-- The fixed `system_instruction` string of `build_strict_prompt`. -/
def system_instruction : String :=
  "You are an AI assistant specialized ONLY in summarizing a text/pdf, comparing two text snippets/pdfs, and answering questions based on the provided PDF document context.\nDO NOT answer questions unrelated to the PDFs or these tasks.\nIf a question is outside your scope, respond politely with: \x27Sorry, I can only assist with information from the PDFs provided.\x27\n\n"

/-- The refusal sentence the spec fixes. -/
def refusal_sentence : String :=
  "Sorry, I can only assist with information from the PDFs provided."

/-- `build_strict_prompt(context, history_messages, user_message)`; the
`if context:` branch is Python truthiness (non-empty string). -/
def build_strict_prompt (context : String) (history_messages : List ChatMessage)
    (user_message : String) : String :=
  if context ≠ "" then
    system_instruction
      ++ ("Document Context:\n" ++ context ++ "\n\n")
      ++ history_text history_messages ++ "\n\n"
      ++ ("User: " ++ user_message ++ "\n\nAssistant:")
  else
    system_instruction
      ++ history_text history_messages ++ "\n\n"
      ++ ("User: " ++ user_message ++ "\n\nAssistant:")

/-! ### Chat orchestration (lines 224-320) -/

/-- The JSON body of a chat request. -/
structure ChatMessageRequest where
  message : String
  session_id : String
  filename : Option String
deriving DecidableEq, Repr

/-- The JSON body of a batch chat response. -/
structure ChatMessageResponse where
  content : String
  sources : Option (List String)
  session_id : String
  success : Bool
deriving DecidableEq, Repr

/-- Python truthiness of the optional filename field: absent and empty
string both count as no document named. -/
def filenameGiven : Option String → Option String
  | none => none
  | some s => if s = "" then none else some s

/-- The duplicated retrieval block of both chat handlers: when a document is
named, `vector_stores[request.filename]` (raising `KeyError` when absent)
and the top-3 retrieval, joined into a context string and kept as sources. -/
def retrieve_context (st : ServerState) (req : ChatMessageRequest) :
    Except AppError (String × List String) :=
  match filenameGiven req.filename with
  | none => Except.ok ("", [])
  | some fn =>
    match List.lookup fn st.vector_stores with
    | some vector_store =>
        let relevant_docs := topK vector_store req.message 3
        Except.ok (String.intercalate ("\n\n") relevant_docs, relevant_docs)
    | none => Except.error (.keyError fn)

/-- The body of the `try` block of `chat_message` (lines 232-262): fetch or
create the session, retrieve context, build the prompt, invoke the model,
then append the user and assistant turns and bump the counter. -/
def chat_message_body (env : Env) (st : ServerState) (req : ChatMessageRequest) :
    Except AppError (ChatMessageResponse × ServerState) :=
  match get_or_create_session env st req.session_id with
  | .error e => Except.error e
  | .ok (session, st1) =>
    match retrieve_context st1 req with
    | .error e => Except.error e
    | .ok (context, sources) =>
      match env.invoke (build_strict_prompt context session.messages req.message) with
      | .error e => Except.error (.upstream e)
      | .ok response =>
        Except.ok
          ({ content := response, sources := some sources,
             session_id := req.session_id, success := true },
           putSession st1 req.session_id (appendTurn session req.message response))

/-- The `except` clause of `chat_message`: any exception becomes an HTTP 500
with the error description. -/
def wrap500 : Except AppError (ChatMessageResponse × ServerState) →
    Except AppError (ChatMessageResponse × ServerState)
  | .ok x => Except.ok x
  | .error e => Except.error (.httpError 500 ("Chat error: " ++ errDescription e))

/-- `chat_message` (batch mode, lines 224-264): reject an unknown named
document with HTTP 400 before anything else, then run the body under the
catch-all handler. -/
def chat_message (env : Env) (st : ServerState) (req : ChatMessageRequest) :
    Except AppError (ChatMessageResponse × ServerState) :=
  match filenameGiven req.filename with
  | some fn =>
      if (List.lookup fn st.vector_stores).isNone then
        Except.error (.httpError 400 ("PDF not found. Upload before chatting."))
      else
        wrap500 (chat_message_body env st req)
  | none => wrap500 (chat_message_body env st req)

/-- One server-sent event of the streaming endpoint: a fragment event, the
final full-answer event, the in-band error event, or the data-DONE
end-of-stream marker. -/
inductive StreamEvent where
  | data (content : String)
  | final (content : String) (sources : List String) (session_id : String) (success : Bool)
  | errorEvent (content : String) (session_id : String) (success : Bool)
  | done
deriving DecidableEq, Repr

/-- `generate_stream` of `chat_message_stream` (lines 273-318): the same
pre-model steps as batch mode, with no upfront filename check; fragments
are forwarded as they arrive and accumulated; after a clean finish the
session is updated and a final event plus the DONE marker are emitted; any
exception instead yields an in-band error event plus the DONE marker,
leaving memory untouched. -/
def generate_stream (env : Env) (st : ServerState) (req : ChatMessageRequest) :
    List StreamEvent × ServerState :=
  match get_or_create_session env st req.session_id with
  | .error e =>
      ([StreamEvent.errorEvent ("Error: " ++ errDescription e) req.session_id false,
        StreamEvent.done], st)
  | .ok (session, st1) =>
    match retrieve_context st1 req with
    | .error e =>
        ([StreamEvent.errorEvent ("Error: " ++ errDescription e) req.session_id false,
          StreamEvent.done], st1)
    | .ok (_context, sources) =>
      let prompt := build_strict_prompt _context session.messages req.message
      let response_chunks := (env.stream prompt).1
      let fragEvents := response_chunks.map StreamEvent.data
      match (env.stream prompt).2 with
      | some err =>
          (fragEvents ++
            [StreamEvent.errorEvent ("Error: " ++ err) req.session_id false,
             StreamEvent.done], st1)
      | none =>
        let full_response := String.join response_chunks
        (fragEvents ++
          [StreamEvent.final full_response sources req.session_id true,
           StreamEvent.done],
         putSession st1 req.session_id (appendTurn session req.message full_response))

/-! ### History, delete, startup, health -/

/-- One entry of the history response. -/
structure HistoryMessage where
  role : String
  content : String
  timestamp : Nat
deriving DecidableEq, Repr

/-- `get_chat_history` (lines 323-337): empty list for an unknown session,
else every stored message in order, with the session creation time as the
displayed timestamp. -/
def get_chat_history (st : ServerState) (session_id : String) : List HistoryMessage :=
  match List.lookup session_id st.chat_sessions with
  | none => []
  | some session =>
      session.messages.map (fun m =>
        { role := (match m with | .human _ => "user" | .ai _ => "assistant")
          content := m.content
          timestamp := session.created_at })

/-- The JSON body of a delete response. -/
structure DeleteResult where
  success : Bool
  message : Option String
deriving DecidableEq, Repr

/-- `delete_file` (lines 211-221): pop the filename from both registries,
then remove the stored file when it was registered and exists on disk.
`os_remove_result` is the outcome of `os.remove` (`none` = success,
`some msg` = the OSError description). -/
def delete_file (st : ServerState) (filename : String)
    (os_remove_result : Option String) : DeleteResult × ServerState :=
  let file_info := List.lookup filename st.uploaded_files
  let st1 : ServerState :=
    { st with uploaded_files := eraseKey filename st.uploaded_files
              vector_stores := eraseKey filename st.vector_stores }
  match file_info with
  | some info =>
    if st1.files.contains info.path then
      match os_remove_result with
      | none =>
          ({ success := true, message := none },
           { st1 with files := st1.files.erase info.path })
      | some err =>
          ({ success := false, message := some ("Error deleting file: " ++ err) }, st1)
    else ({ success := false, message := some ("File not found") }, st1)
  | none => ({ success := false, message := some ("File not found") }, st1)

/-- The module-level state after import: three empty registries and an
empty upload folder. -/
def initial_state : ServerState :=
  { uploaded_files := [], vector_stores := [], chat_sessions := [], files := [] }

/-- Process startup (module initialization, lines 22-40, and the uvicorn
main): it creates the app, the CORS middleware, the empty registries and
the tmp folder.  It never reads keys.txt, so it cannot fail on a missing
configuration value. -/
def startup (_env : Env) : Except AppError ServerState :=
  Except.ok initial_state

/-- The JSON body of the health response. -/
structure HealthResponse where
  status : String
  uploaded_files : Nat
  active_sessions : Nat
  ai_service_configured : Bool
  error : Option String
deriving DecidableEq, Repr

/-- `health_check` (lines 157-174): reports healthy when the configuration
loads and degraded (with the error description) when it does not. -/
def health_check (env : Env) (st : ServerState) : HealthResponse :=
  match load_config env with
  | .ok _ =>
      { status := "healthy", uploaded_files := st.uploaded_files.length,
        active_sessions := st.chat_sessions.length,
        ai_service_configured := true, error := none }
  | .error e =>
      { status := "degraded", uploaded_files := st.uploaded_files.length,
        active_sessions := st.chat_sessions.length,
        ai_service_configured := false, error := some (errDescription e) }

/-- Success flag of a batch chat outcome, `none` when the request raised. -/
def chat_result_success : Except AppError (ChatMessageResponse × ServerState) → Option Bool
  | .ok (r, _) => some r.success
  | .error _ => none

/-! ### Concrete inputs used by witnesses and counterexamples -/

/-- A complete keys.txt content. -/
def goodKeys : List (String × String) :=
  [("API_KEY", "k"), ("AI_Agent_URL", "u"), ("AI_Agent_Stream_URL", "w")]

/-- An environment with keys.txt absent. -/
def envNoKeys : Env :=
  { keysFile := none, now := 0,
    invoke := fun _ => Except.ok (""),
    stream := fun _ => ([], none) }

/-- An environment with a complete configuration and a deterministic model
whose stream fragments concatenate to its blocking answer. -/
def envOk : Env :=
  { keysFile := some goodKeys, now := 0,
    invoke := fun _ => Except.ok ("answer"),
    stream := fun _ => (["an", "swer"], none) }

/-- An environment whose incremental call always fails after one fragment. -/
def envStreamFail : Env :=
  { keysFile := some goodKeys, now := 0,
    invoke := fun _ => Except.ok ("answer"),
    stream := fun _ => (["par"], some ("boom")) }

/-- A session as created by `get_or_create_session` under `goodKeys`. -/
def sessionW : Session :=
  { messages := [], llm := { secret_key := "k", non_stream_url := "u", stream_url := "w" },
    created_at := 0, message_count := 0 }

/-- A session holding one full turn. -/
def sessionTalked : Session :=
  { sessionW with
    messages := [ChatMessage.human ("hi"), ChatMessage.ai ("hello")]
    message_count := 1 }

/-- A state holding the session `s`. -/
def stWithSession : ServerState :=
  { initial_state with chat_sessions := [("s", sessionW)] }

/-- A state holding the talked session `s`. -/
def stTalked : ServerState :=
  { initial_state with chat_sessions := [("s", sessionTalked)] }

/-- A chat request in session `s` naming no document. -/
def reqPlain : ChatMessageRequest :=
  { message := "hi", session_id := "s", filename := none }

/-- A chat request in session `s1` naming a document that was never
uploaded. -/
def reqMissingPdf : ChatMessageRequest :=
  { message := "m", session_id := "s1", filename := some ("missing.pdf") }

/-- A chat request naming the empty-string filename. -/
def reqEmptyName : ChatMessageRequest :=
  { message := "m", session_id := "s2", filename := some ("") }

/-- A chat request in session `s` naming an uploaded document. -/
def reqNamedPdf : ChatMessageRequest :=
  { message := "m", session_id := "s", filename := some ("a.pdf") }

/-- A one-chunk store used to exhibit retrieval on an undersized index. -/
def tinyStore : VectorStore :=
  { chunks := ["only chunk"], score := fun _ _ => 0 }

/-! ## Helper lemmas -/

theorem lookup_cons (k : String) (p : String × α) (rest : List (String × α)) :
    List.lookup k (p :: rest) = if k = p.1 then some p.2 else List.lookup k rest := by
  by_cases h : k = p.1
  · simp [List.lookup, h]
  · have hb : (k == p.1) = false := beq_eq_false_iff_ne.mpr h
    simp [List.lookup, hb, h]

theorem eraseKey_cons (k : String) (p : String × α) (rest : List (String × α)) :
    eraseKey k (p :: rest) =
      if p.1 = k then eraseKey k rest else p :: eraseKey k rest := by
  by_cases h : p.1 = k <;> simp [eraseKey, List.filter_cons, h]

theorem lookup_insertKey_self (k : String) (v : α) (m : List (String × α)) :
    List.lookup k (insertKey k v m) = some v := by
  induction m with
  | nil => simp [insertKey, lookup_cons]
  | cons p rest ih =>
    by_cases h : p.1 = k
    · simp [insertKey, h, lookup_cons]
    · simp [insertKey, h, lookup_cons, Ne.symm h, ih]

theorem lookup_insertKey_ne (k k' : String) (v : α) (m : List (String × α))
    (h : k' ≠ k) : List.lookup k' (insertKey k v m) = List.lookup k' m := by
  induction m with
  | nil => simp [insertKey, lookup_cons, h]
  | cons p rest ih =>
    by_cases hp : p.1 = k
    · subst hp
      simp [insertKey, lookup_cons, h, ih]
    · simp only [insertKey, if_neg hp, lookup_cons, ih]

theorem lookup_eraseKey_self (k : String) (m : List (String × α)) :
    List.lookup k (eraseKey k m) = none := by
  induction m with
  | nil => simp [eraseKey]
  | cons p rest ih =>
    rw [eraseKey_cons]
    by_cases h : p.1 = k
    · simp [h, ih]
    · simp [h, lookup_cons, Ne.symm h, ih]

theorem lookup_eraseKey_ne (k k' : String) (m : List (String × α))
    (h : k' ≠ k) : List.lookup k' (eraseKey k m) = List.lookup k' m := by
  induction m with
  | nil => simp [eraseKey]
  | cons p rest ih =>
    rw [eraseKey_cons]
    by_cases hp : p.1 = k
    · subst hp
      simp [lookup_cons, h, ih]
    · simp [hp, lookup_cons, ih]

theorem eraseKey_lookup_none (k : String) (m : List (String × α))
    (h : List.lookup k m = none) : eraseKey k m = m := by
  induction m with
  | nil => simp [eraseKey]
  | cons p rest ih =>
    rw [lookup_cons] at h
    by_cases hk : k = p.1
    · rw [if_pos hk] at h; exact absurd h (by simp)
    · rw [if_neg hk] at h
      rw [eraseKey_cons, if_neg (Ne.symm hk), ih h]

theorem length_insertDesc (score : String → Int) (c : String) (l : List String) :
    (insertDesc score c l).length = l.length + 1 := by
  induction l with
  | nil => simp [insertDesc]
  | cons x xs ih =>
    by_cases h : score x ≤ score c
    · simp [insertDesc, h]
    · simp [insertDesc, h, ih]

theorem length_sortDesc (score : String → Int) (l : List String) :
    (sortDesc score l).length = l.length := by
  induction l with
  | nil => simp [sortDesc]
  | cons x xs ih => simp [sortDesc, length_insertDesc, ih]

theorem length_lastN (n : Nat) (l : List α) :
    (lastN n l).length = min n l.length := by
  simp only [lastN, List.length_drop]
  omega

theorem lastN_lastN (n : Nat) (l : List α) : lastN n (lastN n l) = lastN n l := by
  have h : (lastN n l).length ≤ n := by rw [length_lastN]; omega
  have h0 : (lastN n l).length - n = 0 := by omega
  show List.drop ((lastN n l).length - n) (lastN n l) = lastN n l
  rw [h0, List.drop_zero]

theorem lastN_eq_nil_iff (n : Nat) (l : List α) (hn : 0 < n) :
    lastN n l = [] ↔ l = [] := by
  constructor
  · intro h
    have hl := length_lastN n l
    rw [h] at hl
    simp only [List.length_nil] at hl
    have hz : l.length = 0 := by omega
    exact List.length_eq_zero.mp hz
  · intro h; simp [h, lastN]

/-- `history_text` reads only the last 10 messages. -/
theorem history_text_lastN (l : List ChatMessage) :
    history_text (lastN 10 l) = history_text l := by
  by_cases h : l = []
  · subst h; rfl
  · have h10 : lastN 10 l ≠ [] := by
      intro he
      exact h ((lastN_eq_nil_iff 10 l (by omega)).mp he)
    simp only [history_text, List.isEmpty_iff, h, h10, if_neg, lastN_lastN]

/-- `build_strict_prompt` reads only the last 10 history messages. -/
theorem build_strict_prompt_lastN (context : String) (l : List ChatMessage)
    (msg : String) :
    build_strict_prompt context (lastN 10 l) msg = build_strict_prompt context l msg := by
  simp only [build_strict_prompt, history_text_lastN]

/-- When `load_config` succeeds, every required key is present. -/
theorem load_config_required (env : Env) (config : List (String × String))
    (h : load_config env = Except.ok config) (k : String) (hk : k ∈ required_keys) :
    ∃ v, List.lookup k config = some v := by
  unfold load_config at h
  match hf : env.keysFile with
  | none => rw [hf] at h; exact absurd h (by simp)
  | some c =>
    rw [hf] at h
    simp only at h
    by_cases he : (required_keys.filter (fun k => (List.lookup k c).isNone)).isEmpty
    · rw [if_pos he] at h
      have hc : c = config := by
        injection h
      subst hc
      rw [List.isEmpty_iff, List.filter_eq_nil_iff] at he
      have := he k hk
      simp only [Option.isNone_iff_eq_none] at this
      cases hv : List.lookup k c with
      | none => exact absurd (by simpa using hv) (by simpa using this)
      | some v => exact ⟨v, rfl⟩
    · rw [if_neg he] at h
      exact absurd h (by simp)

/-- Case analysis of `get_or_create_session`: an existing session is
returned with the state unchanged; otherwise a configuration failure is
propagated with no state change, or a fresh empty session is installed. -/
theorem get_or_create_session_spec (env : Env) (st : ServerState) (sid : String) :
    (∃ s, List.lookup sid st.chat_sessions = some s ∧
      get_or_create_session env st sid = Except.ok (s, st)) ∨
    (List.lookup sid st.chat_sessions = none ∧ ∃ e, load_config env = Except.error e ∧
      get_or_create_session env st sid = Except.error e) ∨
    (List.lookup sid st.chat_sessions = none ∧ ∃ s, s.messages = [] ∧ s.message_count = 0 ∧
      get_or_create_session env st sid = Except.ok (s, putSession st sid s)) := by
  match hs : List.lookup sid st.chat_sessions with
  | some s =>
    exact Or.inl ⟨s, rfl, by simp [get_or_create_session, hs]⟩
  | none =>
    match hc : load_config env with
    | .error e =>
      exact Or.inr (Or.inl ⟨rfl, e, rfl, by simp [get_or_create_session, hs, hc]⟩)
    | .ok config =>
      obtain ⟨v1, hv1⟩ := load_config_required env config hc ("API_KEY") (by simp [required_keys])
      obtain ⟨v2, hv2⟩ := load_config_required env config hc ("AI_Agent_URL") (by simp [required_keys])
      obtain ⟨v3, hv3⟩ := load_config_required env config hc ("AI_Agent_Stream_URL") (by simp [required_keys])
      refine Or.inr (Or.inr ⟨rfl, ?_⟩)
      refine ⟨{ messages := []
                llm := { secret_key := v1, non_stream_url := v2, stream_url := v3 }
                created_at := env.now
                message_count := 0 }, rfl, rfl, ?_⟩
      simp [get_or_create_session, hs, hc, dictGet, hv1, hv2, hv3, putSession]

/-- The vector-store registry part of the delete result: both registries
are popped before any branch of `delete_file` is taken. -/
theorem delete_file_vector_stores (st : ServerState) (fn : String)
    (osr : Option String) :
    ((delete_file st fn osr).2).vector_stores = eraseKey fn st.vector_stores := by
  unfold delete_file
  cases hli : List.lookup fn st.uploaded_files with
  | none => rfl
  | some info =>
    by_cases hc : info.path ∈ st.files
    · cases osr with
      | none => simp [hc]
      | some err => simp [hc]
    · simp [hc]

/-! ## Claim theorems -/

/-- C3 counterexample: the claim says retrieval returns an empty list when
the index has fewer than `k` chunks; on an index with one chunk and `k = 3`
the retriever returns that one chunk, not an empty list. -/
theorem topK_small_index_not_empty :
    tinyStore.chunks.length < 3 ∧ topK tinyStore ("q") 3 = ["only chunk"] ∧
      topK tinyStore ("q") 3 ≠ [] := by
  refine ⟨by decide, by decide, by decide⟩

/-- C3 (amended): `topK` returns at most `k` chunk texts and, without error,
exactly `min k n` of them on an index of `n` chunks — in particular all the
chunks, not an empty list, when the index holds fewer than `k`. -/
theorem topK_length_min (vs : VectorStore) (query : String) (k : Nat) :
    (topK vs query k).length = min k vs.chunks.length ∧
      (topK vs query k).length ≤ k := by
  constructor
  · simp [topK, List.length_take, length_sortDesc]
  · simp [topK, List.length_take]

/-- C4: the assembled prompt is exactly the fixed system instruction, then
the document context block if and only if the context string is non-empty,
then the rendered history followed by the new user turn; and the system
instruction contains the fixed refusal sentence. -/
theorem build_strict_prompt_structure (context : String)
    (history : List ChatMessage) (msg : String) :
    build_strict_prompt context history msg =
      system_instruction
        ++ (if context = "" then "" else "Document Context:\n" ++ context ++ "\n\n")
        ++ (history_text history ++ "\n\n" ++ ("User: " ++ msg ++ "\n\nAssistant:")) ∧
      ∃ pre post, system_instruction = pre ++ refusal_sentence ++ post := by
  constructor
  · by_cases h : context = ""
    · simp [build_strict_prompt, h, String.append_assoc]
    · simp [build_strict_prompt, h, String.append_assoc]
  · refine ⟨"You are an AI assistant specialized ONLY in summarizing a text/pdf, comparing two text snippets/pdfs, and answering questions based on the provided PDF document context.\nDO NOT answer questions unrelated to the PDFs or these tasks.\nIf a question is outside your scope, respond politely with: \x27",
      "\x27\n\n", ?_⟩
    decide

/-- C7 counterexample: with keys.txt absent the process still starts
successfully — module initialization never reads the configuration — and
the health endpoint then reports a degraded service rather than the
startup-time failure the claim requires. -/
theorem startup_succeeds_without_config :
    envNoKeys.keysFile = none ∧ startup envNoKeys = Except.ok initial_state ∧
      (health_check envNoKeys initial_state).status = "degraded" := by
  refine ⟨rfl, rfl, by decide⟩

/-- C7 (amended): while any required configuration value is absent, session
creation fails before inserting anything — `get_or_create_session`
propagates the configuration error, a batch chat request fails, and a
streaming request leaves the state untouched — so no session ever exists;
the failure happens at first use, not at startup. -/
theorem no_session_while_config_missing (env : Env) (st : ServerState)
    (req : ChatMessageRequest) (e : AppError)
    (hcfg : load_config env = Except.error e)
    (habs : List.lookup req.session_id st.chat_sessions = none) :
    get_or_create_session env st req.session_id = Except.error e ∧
    (∃ e2, chat_message env st req = Except.error e2) ∧
    (generate_stream env st req).2 = st := by
  have hg : get_or_create_session env st req.session_id = Except.error e := by
    simp [get_or_create_session, habs, hcfg]
  refine ⟨hg, ?_, ?_⟩
  · cases hf : filenameGiven req.filename with
    | none =>
      exact ⟨.httpError 500 ("Chat error: " ++ errDescription e),
        by simp [chat_message, hf, chat_message_body, hg, wrap500]⟩
    | some fn =>
      by_cases hl : (List.lookup fn st.vector_stores).isNone
      · exact ⟨.httpError 400 ("PDF not found. Upload before chatting."),
          by simp [chat_message, hf, hl]⟩
      · exact ⟨.httpError 500 ("Chat error: " ++ errDescription e),
          by simp [chat_message, hf, hl, chat_message_body, hg, wrap500]⟩
  · simp [generate_stream, hg]

/-- C7 witness: a concrete run of the amended claim with keys.txt absent. -/
theorem no_session_while_config_missing_witness :
    get_or_create_session envNoKeys initial_state reqPlain.session_id =
      Except.error (.fileNotFound
        ("keys.txt not found. Please create it with your API configuration.")) ∧
    (∃ e2, chat_message envNoKeys initial_state reqPlain = Except.error e2) ∧
    (generate_stream envNoKeys initial_state reqPlain).2 = initial_state :=
  no_session_while_config_missing envNoKeys initial_state reqPlain
    (.fileNotFound ("keys.txt not found. Please create it with your API configuration."))
    rfl rfl

/-- C8: `get_or_create_session` is idempotent — a successful call followed
by a second call returns the same session and state; an existing session is
returned unchanged, state included (so same history, counter and bound
client); a newly created session has empty history and a zero counter. -/
theorem get_or_create_session_props (env : Env) (st : ServerState) (sid : String) :
    (∀ s st1, get_or_create_session env st sid = Except.ok (s, st1) →
      get_or_create_session env st1 sid = Except.ok (s, st1)) ∧
    (∀ s, List.lookup sid st.chat_sessions = some s →
      get_or_create_session env st sid = Except.ok (s, st)) ∧
    (∀ s st1, List.lookup sid st.chat_sessions = none →
      get_or_create_session env st sid = Except.ok (s, st1) →
      s.messages = [] ∧ s.message_count = 0) := by
  refine ⟨?_, ?_, ?_⟩
  · intro s st1 hok
    rcases get_or_create_session_spec env st sid with
      ⟨s', hs', heq⟩ | ⟨_, e, _, herr⟩ | ⟨hnone, s', _, _, heq⟩
    · rw [heq] at hok
      obtain ⟨h1, h2⟩ : s' = s ∧ st = st1 := by simpa using hok
      subst h1; subst h2
      simp [get_or_create_session, hs']
    · rw [herr] at hok; exact absurd hok (by simp)
    · rw [heq] at hok
      obtain ⟨h1, h2⟩ : s' = s ∧ putSession st sid s' = st1 := by
        simpa using hok
      subst h1
      rw [← h2]
      simp [get_or_create_session, putSession, lookup_insertKey_self]
  · intro s hs
    simp [get_or_create_session, hs]
  · intro s st1 hnone hok
    rcases get_or_create_session_spec env st sid with
      ⟨s', hs', _⟩ | ⟨_, e, _, herr⟩ | ⟨_, s', hm, hmc, heq⟩
    · rw [hnone] at hs'; exact absurd hs' (by simp)
    · rw [herr] at hok; exact absurd hok (by simp)
    · rw [heq] at hok
      obtain ⟨h1, _⟩ : s' = s ∧ putSession st sid s' = st1 := by
        simpa using hok
      subst h1
      exact ⟨hm, hmc⟩

/-- C8 witness: the existing session `s` is returned unchanged. -/
theorem get_or_create_session_props_witness :
    get_or_create_session envOk stWithSession ("s") =
      Except.ok (sessionW, stWithSession) :=
  (get_or_create_session_props envOk stWithSession ("s")).2.1 sessionW (by decide)

/-- C9: deleting a filename that is live in neither registry returns a
failure result, not an error, and leaves the whole state — document map,
index map and file system — unchanged; doing it twice gives the same
outcome. -/
theorem delete_missing_file_idempotent (st : ServerState) (fn : String)
    (osr : Option String)
    (h1 : List.lookup fn st.uploaded_files = none)
    (h2 : List.lookup fn st.vector_stores = none) :
    delete_file st fn osr = ({ success := false, message := some ("File not found") }, st) ∧
    delete_file (delete_file st fn osr).2 fn osr =
      ({ success := false, message := some ("File not found") }, st) := by
  have he1 := eraseKey_lookup_none fn st.uploaded_files h1
  have he2 := eraseKey_lookup_none fn st.vector_stores h2
  have hmain : delete_file st fn osr =
      ({ success := false, message := some ("File not found") }, st) := by
    simp [delete_file, h1, he1, he2]
  refine ⟨hmain, by rw [hmain]; exact hmain⟩

/-- C9 witness: deleting a never-uploaded file from the initial state. -/
theorem delete_missing_file_idempotent_witness :
    delete_file initial_state ("ghost.pdf") none =
      ({ success := false, message := some ("File not found") }, initial_state) :=
  (delete_missing_file_idempotent initial_state ("ghost.pdf") none rfl rfl).1

/-- C10 counterexample: for the empty-string filename the claimed
consequence fails — after deleting it no index is registered under it, yet
a chat request naming it succeeds (Python truthiness skips the not-found
check) instead of failing with the not-found failure. -/
theorem delete_empty_filename_chat_succeeds :
    List.lookup ("") ((delete_file initial_state ("") none).2).vector_stores = none ∧
    chat_result_success
      (chat_message envOk ((delete_file initial_state ("") none).2) reqEmptyName) =
      some true := by
  constructor
  · rfl
  · rfl

/-- C10 (amended): after `delete_file` returns for a non-empty filename —
whatever its success flag — no vector index is registered under it, and a
subsequent batch chat request naming it fails with the HTTP 400 not-found
failure. -/
theorem delete_unregisters_index_chat_fails (env : Env) (st : ServerState)
    (req : ChatMessageRequest) (fn : String) (osr : Option String)
    (hfn : req.filename = some fn) (hne : fn ≠ "") :
    List.lookup fn ((delete_file st fn osr).2).vector_stores = none ∧
    chat_message env ((delete_file st fn osr).2) req =
      Except.error (.httpError 400 ("PDF not found. Upload before chatting.")) := by
  have hvs : List.lookup fn ((delete_file st fn osr).2).vector_stores = none := by
    rw [delete_file_vector_stores, lookup_eraseKey_self]
  refine ⟨hvs, ?_⟩
  have hf : filenameGiven req.filename = some fn := by
    simp [filenameGiven, hfn, hne]
  simp [chat_message, hf, hvs]

/-- C10 witness: a concrete delete followed by a chat naming the file. -/
theorem delete_unregisters_index_chat_fails_witness :
    List.lookup ("a.pdf") ((delete_file initial_state ("a.pdf") none).2).vector_stores = none ∧
    chat_message envOk ((delete_file initial_state ("a.pdf") none).2) reqNamedPdf =
      Except.error (.httpError 400 ("PDF not found. Upload before chatting.")) :=
  delete_unregisters_index_chat_fails envOk initial_state reqNamedPdf ("a.pdf") none
    rfl (by decide)

/-- Under a session that already exists and a valid (or absent) document
name, the retrieval step succeeds. -/
theorem retrieve_context_ok (st : ServerState) (req : ChatMessageRequest)
    (hfn : ∀ fn, filenameGiven req.filename = some fn →
      (List.lookup fn st.vector_stores).isSome = true) :
    ∃ ctx srcs, retrieve_context st req = Except.ok (ctx, srcs) := by
  cases hf : filenameGiven req.filename with
  | none => exact ⟨"", [], by simp [retrieve_context, hf]⟩
  | some fn =>
    have hsome := hfn fn hf
    cases hl : List.lookup fn st.vector_stores with
    | none => rw [hl] at hsome; exact absurd hsome (by simp)
    | some vs =>
      exact ⟨String.intercalate ("\n\n") (topK vs req.message 3), topK vs req.message 3,
        by simp [retrieve_context, hf, hl]⟩

/-- C1: for every streaming chat request that reaches the model (the
session fetch-or-create step succeeded, yielding the post-step state
`st1`), when the incremental call raises after zero or more fragments the
stream consists of exactly the forwarded fragment events, a terminal error
event whose content is the error description with success false, and the
end-of-stream marker; the final state is exactly `st1`, so no turn is ever
appended and no counter bumped: a pre-existing session leaves the whole
state bit-for-bit unchanged, a freshly created session has empty history
and a zero counter, and the observable history of every session id is the
same as before the request. -/
theorem stream_failure_emits_error_and_preserves_session (env : Env)
    (st st1 : ServerState) (req : ChatMessageRequest) (session : Session)
    (frags : List String) (err : String)
    (hsess : get_or_create_session env st req.session_id = Except.ok (session, st1))
    (hfn : ∀ fn, filenameGiven req.filename = some fn →
      (List.lookup fn st.vector_stores).isSome = true)
    (hstream : ∀ p, env.stream p = (frags, some err)) :
    generate_stream env st req =
      (frags.map StreamEvent.data ++
        [StreamEvent.errorEvent ("Error: " ++ err) req.session_id false, StreamEvent.done],
       st1) ∧
    (∀ s0, List.lookup req.session_id st.chat_sessions = some s0 →
      st1 = st ∧ session = s0) ∧
    (List.lookup req.session_id st.chat_sessions = none →
      session.messages = [] ∧ session.message_count = 0) ∧
    (∀ sid, get_chat_history st1 sid = get_chat_history st sid) := by
  rcases get_or_create_session_spec env st req.session_id with
    ⟨s0, hs0, heq⟩ | ⟨_, e, _, herr⟩ | ⟨hnone, s', hm, hmc, heq⟩
  · rw [heq] at hsess
    obtain ⟨h1, h2⟩ : s0 = session ∧ st = st1 := by simpa using hsess
    subst h1
    subst h2
    obtain ⟨ctx, srcs, hr⟩ := retrieve_context_ok st req hfn
    refine ⟨by simp only [generate_stream, heq, hr, hstream], ?_, ?_, fun sid => rfl⟩
    · intro s1 h
      exact ⟨rfl, Option.some.inj (hs0.symm.trans h)⟩
    · intro hn
      rw [hs0] at hn
      exact absurd hn (by simp)
  · rw [herr] at hsess
    exact absurd hsess (by simp)
  · rw [heq] at hsess
    obtain ⟨h1, h2⟩ : s' = session ∧ putSession st req.session_id s' = st1 := by
      simpa using hsess
    subst h1
    subst h2
    have hfn1 : ∀ fn, filenameGiven req.filename = some fn →
        (List.lookup fn (putSession st req.session_id s').vector_stores).isSome = true := by
      intro fn hf
      have hv : (putSession st req.session_id s').vector_stores = st.vector_stores := rfl
      rw [hv]
      exact hfn fn hf
    obtain ⟨ctx, srcs, hr⟩ := retrieve_context_ok (putSession st req.session_id s') req hfn1
    refine ⟨by simp only [generate_stream, heq, hr, hstream], ?_, fun _ => ⟨hm, hmc⟩, ?_⟩
    · intro s1 h
      rw [hnone] at h
      exact absurd h (by simp)
    · intro sid
      by_cases hsid : sid = req.session_id
      · subst hsid
        simp [get_chat_history, putSession, lookup_insertKey_self, hnone, hm]
      · simp [get_chat_history, putSession,
          lookup_insertKey_ne req.session_id sid s' st.chat_sessions hsid]

/-- C1 witness: a streaming request in a fresh session; one fragment
arrives, then the model raises — the fresh session is left empty. -/
theorem stream_failure_witness :
    generate_stream envStreamFail initial_state reqPlain =
      (List.map StreamEvent.data ["par"] ++
        [StreamEvent.errorEvent ("Error: " ++ "boom") reqPlain.session_id false,
         StreamEvent.done],
       stWithSession) ∧
    (∀ s0, List.lookup reqPlain.session_id initial_state.chat_sessions = some s0 →
      stWithSession = initial_state ∧ sessionW = s0) ∧
    (List.lookup reqPlain.session_id initial_state.chat_sessions = none →
      sessionW.messages = [] ∧ sessionW.message_count = 0) ∧
    (∀ sid, get_chat_history stWithSession sid = get_chat_history initial_state sid) :=
  stream_failure_emits_error_and_preserves_session envStreamFail initial_state
    stWithSession reqPlain sessionW ["par"] ("boom") rfl
    (fun fn h => by simp [reqPlain, filenameGiven] at h)
    (fun p => rfl)

/-- C2 counterexample: a streaming chat request naming a never-uploaded
document converts the lookup failure into an in-band error event — not an
upfront not-found check — and the session for the request is created
first, so the failed request does mutate the session store. -/
theorem stream_missing_pdf_creates_session :
    (generate_stream envOk initial_state reqMissingPdf).1 =
      [StreamEvent.errorEvent ("Error: \x27missing.pdf\x27") ("s1") false,
       StreamEvent.done] ∧
    (List.lookup ("s1")
      ((generate_stream envOk initial_state reqMissingPdf).2).chat_sessions).isSome = true := by
  constructor
  · rfl
  · rfl

/-- C2 (amended): a chat request naming a document with no live index fails
without recording any message: batch mode rejects it with the HTTP 400
not-found failure before creating or touching any session; streaming mode
emits only an in-band terminal error event plus the end-of-stream marker
and changes no session history — though it may first create a fresh empty
session for the request. -/
theorem missing_pdf_fails_before_mutating_history (env : Env) (st : ServerState)
    (req : ChatMessageRequest) (fn : String)
    (hfn : filenameGiven req.filename = some fn)
    (habs : List.lookup fn st.vector_stores = none) :
    chat_message env st req =
      Except.error (.httpError 400 ("PDF not found. Upload before chatting.")) ∧
    (∃ c, (generate_stream env st req).1 =
      [StreamEvent.errorEvent c req.session_id false, StreamEvent.done]) ∧
    (∀ sid, get_chat_history (generate_stream env st req).2 sid = get_chat_history st sid) := by
  refine ⟨by simp [chat_message, hfn, habs], ?_⟩
  have hret : retrieve_context st req = Except.error (.keyError fn) := by
    simp [retrieve_context, hfn, habs]
  rcases get_or_create_session_spec env st req.session_id with
    ⟨s, hs, heq⟩ | ⟨hnone, e, hcfg, herr⟩ | ⟨hnone, s, hm, _, heq⟩
  · constructor
    · exact ⟨"Error: " ++ errDescription (.keyError fn), by simp [generate_stream, heq, hret]⟩
    · intro sid
      simp [generate_stream, heq, hret]
  · constructor
    · exact ⟨"Error: " ++ errDescription e, by simp [generate_stream, herr]⟩
    · intro sid
      simp [generate_stream, herr]
  · have hret1 : retrieve_context (putSession st req.session_id s) req =
        Except.error (.keyError fn) := by
      simp [retrieve_context, hfn, habs, putSession]
    have hgen : generate_stream env st req =
        ([StreamEvent.errorEvent ("Error: " ++ errDescription (.keyError fn))
            req.session_id false, StreamEvent.done],
         putSession st req.session_id s) := by
      simp only [generate_stream, heq, hret1]
    constructor
    · exact ⟨"Error: " ++ errDescription (.keyError fn), by rw [hgen]⟩
    · intro sid
      rw [hgen]
      by_cases hsid : sid = req.session_id
      · subst hsid
        simp [get_chat_history, putSession, lookup_insertKey_self, hnone, hm]
      · simp [get_chat_history, putSession,
          lookup_insertKey_ne req.session_id sid s st.chat_sessions hsid]

/-- C2 witness: a concrete run of the amended claim. -/
theorem missing_pdf_fails_witness :
    chat_message envOk initial_state reqMissingPdf =
      Except.error (.httpError 400 ("PDF not found. Upload before chatting.")) ∧
    (∃ c, (generate_stream envOk initial_state reqMissingPdf).1 =
      [StreamEvent.errorEvent c reqMissingPdf.session_id false, StreamEvent.done]) ∧
    (∀ sid, get_chat_history (generate_stream envOk initial_state reqMissingPdf).2 sid =
      get_chat_history initial_state sid) :=
  missing_pdf_fails_before_mutating_history envOk initial_state reqMissingPdf
    ("missing.pdf") rfl rfl

/-- C5: for a deterministic backend — the blocking call returns the
concatenation of the fragments the incremental call produces for the same
prompt — the batch answer, the content of the terminal streaming event, and
the concatenation of the emitted fragments in emission order all coincide
for the same request against the same state. -/
theorem stream_batch_equivalence (env : Env) (st : ServerState)
    (req : ChatMessageRequest) (session : Session)
    (hsess : List.lookup req.session_id st.chat_sessions = some session)
    (hfn : ∀ fn, filenameGiven req.filename = some fn →
      (List.lookup fn st.vector_stores).isSome = true)
    (hok : ∀ p, (env.stream p).2 = none)
    (hdet : ∀ p, env.invoke p = Except.ok (String.join (env.stream p).1)) :
    ∃ frags sources st1 st2 resp,
      chat_message env st req = Except.ok (resp, st1) ∧
      generate_stream env st req =
        (frags.map StreamEvent.data ++
          [StreamEvent.final resp.content sources req.session_id true, StreamEvent.done],
         st2) ∧
      resp.content = String.join frags := by
  have hg : get_or_create_session env st req.session_id = Except.ok (session, st) := by
    simp [get_or_create_session, hsess]
  obtain ⟨ctx, srcs, hr⟩ := retrieve_context_ok st req hfn
  have hcm : chat_message env st req = wrap500 (chat_message_body env st req) := by
    cases hf : filenameGiven req.filename with
    | none => simp [chat_message, hf]
    | some fn =>
      have hsome := hfn fn hf
      cases hl : List.lookup fn st.vector_stores with
      | none => rw [hl] at hsome; exact absurd hsome (by simp)
      | some vs => simp [chat_message, hf, hl]
  refine ⟨(env.stream (build_strict_prompt ctx session.messages req.message)).1, srcs,
    putSession st req.session_id (appendTurn session req.message
      (String.join (env.stream (build_strict_prompt ctx session.messages req.message)).1)),
    putSession st req.session_id (appendTurn session req.message
      (String.join (env.stream (build_strict_prompt ctx session.messages req.message)).1)),
    { content := String.join (env.stream (build_strict_prompt ctx session.messages req.message)).1,
      sources := some srcs, session_id := req.session_id, success := true }, ?_, ?_, rfl⟩
  · rw [hcm]
    simp [chat_message_body, hg, hr, hdet, wrap500]
  · have hs2 := hok (build_strict_prompt ctx session.messages req.message)
    simp [generate_stream, hg, hr, hs2]

/-- C5 witness: a deterministic backend whose two fragments concatenate to
its blocking answer. -/
theorem stream_batch_equivalence_witness :
    ∃ frags sources st1 st2 resp,
      chat_message envOk stWithSession reqPlain = Except.ok (resp, st1) ∧
      generate_stream envOk stWithSession reqPlain =
        (frags.map StreamEvent.data ++
          [StreamEvent.final resp.content sources reqPlain.session_id true, StreamEvent.done],
         st2) ∧
      resp.content = String.join frags :=
  stream_batch_equivalence envOk stWithSession reqPlain sessionW (by decide)
    (fun fn h => by simp [reqPlain, filenameGiven] at h)
    (fun p => rfl) (fun p => rfl)

/-- C6: prompt assembly renders at most the last 10 history messages — the
prompt built from the full history equals the one built from only its last
10 messages, a window of length at most 10 — while the history endpoint
still returns every stored message in insertion order. -/
theorem prompt_window_and_full_history (st : ServerState) (sid : String)
    (session : Session) (context msg : String)
    (h : List.lookup sid st.chat_sessions = some session) :
    build_strict_prompt context session.messages msg =
      build_strict_prompt context (lastN 10 session.messages) msg ∧
    (lastN 10 session.messages).length ≤ 10 ∧
    (get_chat_history st sid).length = session.messages.length ∧
    (get_chat_history st sid).map (fun m => m.content) =
      session.messages.map ChatMessage.content := by
  refine ⟨(build_strict_prompt_lastN context session.messages msg).symm, ?_, ?_, ?_⟩
  · rw [length_lastN]; omega
  · simp [get_chat_history, h]
  · simp only [get_chat_history, h, List.map_map]
    congr 1

/-- C6 witness: a session with one recorded turn. -/
theorem prompt_window_witness :
    build_strict_prompt ("") sessionTalked.messages ("hi") =
      build_strict_prompt ("") (lastN 10 sessionTalked.messages) ("hi") ∧
    (lastN 10 sessionTalked.messages).length ≤ 10 ∧
    (get_chat_history stTalked ("s")).length = sessionTalked.messages.length ∧
    (get_chat_history stTalked ("s")).map (fun m => m.content) =
      sessionTalked.messages.map ChatMessage.content :=
  prompt_window_and_full_history stTalked ("s") sessionTalked ("") ("hi") (by decide)
